import Mathlib

/-!
Verification model of the screenshot tool (`Screenshot.py`).

The model embeds the interactive region-selection logic and the capture
pipeline as pure Lean functions:

* `Rect` — a canvas rectangle `(x1, y1, x2, y2)` in virtual-desktop
  coordinates (Python ints, so `Int` here).
* `tkSetRectCoords` — the semantics of assigning coordinates to a Tk
  canvas rectangle item: Tk's `RectOvalCoords` sorts the pair on each
  axis, so reading the item back always yields `x1 ≤ x2` and `y1 ≤ y2`.
  The script calls `canvas.coords(rectangle, …)` and relies on this
  behaviour of the external toolkit.
* `handleBox` / `hitTest` — the eight resize-handle hit boxes as laid out
  by `create_overlay` / `update_resize_handles`, and the first-match scan
  over them performed by `start_drag`.
* `start_drag` / `drag` — the pointer press and motion handlers from
  `bind_rectangle_events`.
* monitor topology, rectangle-config validation (`create_overlay`),
  config persistence (`on_save` / `load_rectangle_config`), the capture
  bounding box (`capture_screenshot`), the sink logic (`save_screenshot`),
  and the session/timer bookkeeping (`win32_event_filter`, `on_press`).
-/

namespace Screenshot

/-- A rectangle `(x1, y1, x2, y2)` in canvas / virtual-desktop coordinates.
Also used for handle hit boxes. -/
structure Rect where
  x1 : Int
  y1 : Int
  x2 : Int
  y2 : Int
deriving DecidableEq, Repr

/-- Assigning coordinates to a Tk canvas rectangle item.  Tk's
`RectOvalCoords` (tkRectOval.c) swaps the stored pair on each axis when
given in descending order, so the item's coordinates read back sorted.
The script's `canvas.coords(rectangle, a, b, c, d)` calls go through this. -/
def tkSetRectCoords (a b c d : Int) : Rect :=
  { x1 := min a c, y1 := min b d, x2 := max a c, y2 := max b d }

/-- `HANDLE_SIZE = 10` — size of the resize handles. -/
def HANDLE_SIZE : Int := 10

/-- `HANDLE_SIZE // 2` (Python floor division). -/
def halfHandle : Int := Int.fdiv HANDLE_SIZE 2

/-- The eight resize handles, named as in the `resize_handles` dict. -/
inductive HandleId where
  | top_left | top_right | bottom_left | bottom_right
  | top_mid | bottom_mid | left_mid | right_mid
deriving DecidableEq, Repr

/-- `rect_coords[0] + (rect_coords[2] - rect_coords[0]) // 2`. -/
def midX (r : Rect) : Int := r.x1 + Int.fdiv (r.x2 - r.x1) 2

/-- `rect_coords[1] + (rect_coords[3] - rect_coords[1]) // 2`. -/
def midY (r : Rect) : Int := r.y1 + Int.fdiv (r.y2 - r.y1) 2

/-- Hit box of each handle, as laid out by `create_overlay` and kept in
sync by `update_resize_handles`: a `HANDLE_SIZE` square centred on the
corner or edge midpoint. -/
def handleBox (r : Rect) : HandleId → Rect
  | .top_left => ⟨r.x1 - halfHandle, r.y1 - halfHandle, r.x1 + halfHandle, r.y1 + halfHandle⟩
  | .top_right => ⟨r.x2 - halfHandle, r.y1 - halfHandle, r.x2 + halfHandle, r.y1 + halfHandle⟩
  | .bottom_left => ⟨r.x1 - halfHandle, r.y2 - halfHandle, r.x1 + halfHandle, r.y2 + halfHandle⟩
  | .bottom_right => ⟨r.x2 - halfHandle, r.y2 - halfHandle, r.x2 + halfHandle, r.y2 + halfHandle⟩
  | .top_mid => ⟨midX r - halfHandle, r.y1 - halfHandle, midX r + halfHandle, r.y1 + halfHandle⟩
  | .bottom_mid => ⟨midX r - halfHandle, r.y2 - halfHandle, midX r + halfHandle, r.y2 + halfHandle⟩
  | .left_mid => ⟨r.x1 - halfHandle, midY r - halfHandle, r.x1 + halfHandle, midY r + halfHandle⟩
  | .right_mid => ⟨r.x2 - halfHandle, midY r - halfHandle, r.x2 + halfHandle, midY r + halfHandle⟩

/-- `coords[0] <= x <= coords[2] and coords[1] <= y <= coords[3]` —
the closed-box membership test in `start_drag`. -/
def inBox (x y : Int) (b : Rect) : Bool :=
  decide (b.x1 ≤ x) && decide (x ≤ b.x2) && decide (b.y1 ≤ y) && decide (y ≤ b.y2)

/-- Iteration order of `for handle, coords in handle_coords.items()`:
the insertion order of the `resize_handles` dict in `create_overlay`. -/
def handleOrder : List HandleId :=
  [.top_left, .top_right, .bottom_left, .bottom_right,
   .top_mid, .bottom_mid, .left_mid, .right_mid]

/-- The four corner handles (inserted before the edge-midpoint handles). -/
def cornerHandles : List HandleId :=
  [.top_left, .top_right, .bottom_left, .bottom_right]

/-- The four edge-midpoint handles. -/
def edgeHandles : List HandleId :=
  [.top_mid, .bottom_mid, .left_mid, .right_mid]

/-- The handle scan in `start_drag`: the first handle in dict order whose
closed box contains the press point, else none. -/
def hitTest (x y : Int) (r : Rect) : Option HandleId :=
  handleOrder.find? (fun h => inBox x y (handleBox r h))

/-- The module-global `drag_data` record. -/
structure DragData where
  x : Int
  y : Int
  dragging : Bool
  resizing : Option HandleId
deriving DecidableEq, Repr

/-- `start_drag(event)`: on a handle hit set `drag_data["resizing"]` and
break; otherwise start dragging, recording the grab offset from the
rectangle's top-left corner. -/
def start_drag (x y : Int) (r : Rect) (d : DragData) : DragData :=
  match hitTest x y r with
  | some h => { d with resizing := some h }
  | none => { d with dragging := true, x := x - r.x1, y := y - r.y1 }

/-- `drag(event)`: move the whole rectangle when dragging, else move the
edge(s) controlled by the active handle to the raw pointer coordinate.
Every branch writes through `canvas.coords`, i.e. `tkSetRectCoords`;
with neither mode active the rectangle is untouched. -/
def drag (x y : Int) (r : Rect) (d : DragData) : Rect :=
  if d.dragging then
    let newX := x - d.x
    let newY := y - d.y
    tkSetRectCoords newX newY (newX + (r.x2 - r.x1)) (newY + (r.y2 - r.y1))
  else
    match d.resizing with
    | some .top_left => tkSetRectCoords x y r.x2 r.y2
    | some .top_right => tkSetRectCoords r.x1 y x r.y2
    | some .bottom_left => tkSetRectCoords x r.y1 r.x2 y
    | some .bottom_right => tkSetRectCoords r.x1 r.y1 x y
    | some .top_mid => tkSetRectCoords r.x1 y r.x2 r.y2
    | some .bottom_mid => tkSetRectCoords r.x1 r.y1 r.x2 y
    | some .left_mid => tkSetRectCoords x r.y1 r.x2 r.y2
    | some .right_mid => tkSetRectCoords r.x1 r.y1 x r.y2
    | none => r

/-! ### Monitors, offsets, rectangle-config validation (`create_overlay`) -/

/-- A monitor rectangle as reported by `screeninfo.get_monitors()`. -/
structure Monitor where
  x : Int
  y : Int
  width : Int
  height : Int
deriving DecidableEq, Repr

/-- `min(monitor.x for monitor in monitors)` over the nonempty monitor
list `m :: rest`. -/
def virtMinX (m : Monitor) (rest : List Monitor) : Int :=
  rest.foldl (fun a mo => min a mo.x) m.x

/-- `min(monitor.y for monitor in monitors)` over `m :: rest`. -/
def virtMinY (m : Monitor) (rest : List Monitor) : Int :=
  rest.foldl (fun a mo => min a mo.y) m.y

/-- `if min_x < 0: canvas_offset_x = -min_x` — the global keeps its
previous value (`prev`, initially 0) when `min_x ≥ 0`. -/
def computeOffsetX (m : Monitor) (rest : List Monitor) (prev : Int) : Int :=
  if virtMinX m rest < 0 then -(virtMinX m rest) else prev

/-- `monitor.x <= p < monitor.x + monitor.width` on both axes — the test
used to find the monitor under the mouse pointer. -/
def monitorContains (mo : Monitor) (px py : Int) : Bool :=
  decide (mo.x ≤ px) && decide (px < mo.x + mo.width) &&
  decide (mo.y ≤ py) && decide (py < mo.y + mo.height)

/-- The monitor under the pointer, defaulting to the first enumerated
monitor when no monitor contains the pointer. -/
def locateMonitor (px py : Int) (m : Monitor) (rest : List Monitor) : Monitor :=
  match (m :: rest).find? (fun mo => monitorContains mo px py) with
  | some mo => mo
  | none => m

/-- Persisted rectangle record `{x, y, width, height}` from the JSON
config. -/
structure RectConfig where
  x : Int
  y : Int
  width : Int
  height : Int
deriving DecidableEq, Repr

/-- The validation in `create_overlay`: the loaded rectangle (adjusted by
`canvas_offset_x` on the x axis) must lie within the current monitor,
with a strict `<` against the right/bottom monitor bounds. -/
def validRect (mo : Monitor) (off : Int) (c : RectConfig) : Bool :=
  decide (mo.x ≤ c.x - off) && decide (c.x - off < mo.x + mo.width) &&
  decide (mo.y ≤ c.y) && decide (c.y < mo.y + mo.height) &&
  decide (mo.x ≤ c.x + c.width - off) && decide (c.x + c.width - off < mo.x + mo.width) &&
  decide (mo.y ≤ c.y + c.height) && decide (c.y + c.height < mo.y + mo.height)

/-- The rectangle drawn by `create_overlay`: the persisted geometry when
it passes `validRect`, else the reset rectangle centred on the current
monitor with half its width and height (Python `//` floor division). -/
def initRect (mo : Monitor) (off : Int) (c : RectConfig) : Rect :=
  if validRect mo off c then
    ⟨c.x, c.y, c.x + c.width, c.y + c.height⟩
  else
    let w := Int.fdiv mo.width 2
    let h := Int.fdiv mo.height 2
    let rx := mo.x + Int.fdiv mo.width 2 - Int.fdiv w 2 + off
    let ry := mo.y + Int.fdiv mo.height 2 - Int.fdiv h 2
    ⟨rx, ry, rx + w, ry + h⟩

/-- `on_save` persists `{x: x1, y: y1, width: x2 - x1, height: y2 - y1}`
from `canvas.coords(rectangle)`; `load_rectangle_config` reads the same
record back unchanged. -/
def saveRectConfig (r : Rect) : RectConfig :=
  ⟨r.x1, r.y1, r.x2 - r.x1, r.y2 - r.y1⟩

/-! ### Capture pipeline (`capture_screenshot`, `save_screenshot`) -/

/-- The bounding box handed to `ImageGrab.grab` in `capture_screenshot`:
`x1, x2 = (x1 - canvas_offset_x, x2 - canvas_offset_x)` — only the x
coordinates are adjusted, the y coordinates are passed through. -/
def captureBBox (off : Int) (r : Rect) : Rect :=
  ⟨r.x1 - off, r.y1, r.x2 - off, r.y2⟩

/-- Modelled from the spec claim: a conversion that subtracts a
negative-origin offset on *each* axis, to compare with `captureBBox`. -/
def claimCaptureBBox (offX offY : Int) (r : Rect) : Rect :=
  ⟨r.x1 - offX, r.y1 - offY, r.x2 - offX, r.y2 - offY⟩

/-- Modelled from the spec claim: the per-axis negative-origin offset for
the y axis (the amount by which the virtual desktop's minimum y is below
zero). The script computes no such offset. -/
def claimOffsetY (m : Monitor) (rest : List Monitor) : Int :=
  if virtMinY m rest < 0 then -(virtMinY m rest) else 0

/-- Availability of the external sinks when `save_screenshot` runs. -/
structure SinkEnv where
  clipboardOk : Bool
  folderOk : Bool
deriving DecidableEq, Repr

/-- Outcome of one `save_screenshot` call: which sinks completed, and the
exception (if any) that propagated out of the straight-line body. -/
structure SaveResult where
  clipboardSaved : Bool
  fileSaved : Bool
  raised : Option String
deriving DecidableEq, Repr

/-- `save_screenshot`: the clipboard block runs first, then the file
block, with no exception handling around either.  A failure in the
clipboard block (e.g. `OpenClipboard` raising) propagates and the file
block never runs; a failure in the file block (e.g. missing folder)
propagates after the clipboard write has already completed. -/
def save_screenshot (saveClipboard saveFile : Bool) (env : SinkEnv) : SaveResult :=
  if saveClipboard then
    if env.clipboardOk then
      if saveFile then
        if env.folderOk then ⟨true, true, none⟩
        else ⟨true, false, some "file sink failed"⟩
      else ⟨true, false, none⟩
    else ⟨false, false, some "clipboard sink failed"⟩
  else
    if saveFile then
      if env.folderOk then ⟨false, true, none⟩
      else ⟨false, false, some "file sink failed"⟩
    else ⟨false, false, none⟩

/-! ### Session state (`win32_event_filter`, `on_save`, `on_press`) -/

/-- The module-global session state: the overlay window with its
rectangle (if any), whether an options dialog exists, and the number of
outstanding one-shot `threading.Timer` captures that have been started
and have not yet fired.  The script keeps no reference to a started
timer. -/
structure AppState where
  overlay : Option Rect
  dialogOpen : Bool
  pendingTimers : Nat
deriving DecidableEq, Repr

/-- `destroy_overlay()`: drops the overlay window (and with it canvas,
rectangle and handles); the dialog and any started timers are untouched. -/
def destroy_overlay (s : AppState) : AppState :=
  { s with overlay := none }

/-- `create_overlay()`: destroys any existing overlay, recomputes the
virtual-desktop offset and the monitor under the pointer, re-initialises
the rectangle from the persisted config via `initRect`, and opens a new
options dialog via `show_dialog`. -/
def create_overlay (m : Monitor) (rest : List Monitor) (px py : Int)
    (cfg : RectConfig) (prevOff : Int) (s : AppState) : AppState :=
  let s1 := destroy_overlay s
  let off := computeOffsetX m rest prevOff
  let cur := locateMonitor px py m rest
  { s1 with overlay := some (initRect cur off cfg), dialogOpen := true }

/-- `win32_event_filter(msg, data)`: on WM_KEYDOWN (0x0100) or
WM_SYSKEYDOWN (0x0104) with `vkCode == VK_SNAPSHOT` (0x2C), call
`create_overlay()` unconditionally; every other event leaves the state
alone. -/
def win32_event_filter (msg vk : Int) (m : Monitor) (rest : List Monitor)
    (px py : Int) (cfg : RectConfig) (prevOff : Int) (s : AppState) : AppState :=
  if (msg = 0x0100 ∨ msg = 0x0104) ∧ vk = 0x2C then
    create_overlay m rest px py cfg prevOff s
  else s

/-- The dialog options read by `on_save`. -/
structure DialogOptions where
  capturePtr : Bool
  saveClipboard : Bool
  saveFolder : Bool
  delayScreenshot : Bool
deriving DecidableEq, Repr

/-- `take_screenshot()` (the closure inside `on_save`): capture, save,
then destroy overlay and dialog.  When invoked by a timer it also
consumes that pending timer. -/
def take_screenshot (fromTimer : Bool) (s : AppState) : AppState :=
  { overlay := none, dialogOpen := false,
    pendingTimers := if fromTimer then s.pendingTimers - 1 else s.pendingTimers }

/-- `on_save`: persist the config, then either start one one-shot
`threading.Timer(5, take_screenshot)` — keeping no reference to it — or
run `take_screenshot` immediately. -/
def on_save (opts : DialogOptions) (s : AppState) : AppState :=
  if opts.delayScreenshot then
    { s with pendingTimers := s.pendingTimers + 1 }
  else
    take_screenshot false s

/-- A started one-shot timer elapsing: it fires `take_screenshot` once
and never repeats. -/
def timer_fire (s : AppState) : AppState :=
  if s.pendingTimers > 0 then take_screenshot true s else s

/-- `on_press(keyboard.Key.esc)`: `destroy_overlay()` then
`dialog.destroy()`.  No timer reference exists, so started timers are
left pending. -/
def on_press_esc (s : AppState) : AppState :=
  { destroy_overlay s with dialogOpen := false }

/-! ### Shared lemmas -/

/-- Tk's coordinate assignment always stores a sorted (possibly
degenerate) rectangle. -/
lemma tkSetRectCoords_le (a b c d : Int) :
    (tkSetRectCoords a b c d).x1 ≤ (tkSetRectCoords a b c d).x2 ∧
    (tkSetRectCoords a b c d).y1 ≤ (tkSetRectCoords a b c d).y2 :=
  ⟨min_le_max, min_le_max⟩

/-! ### Claims -/

/-- C1, counterexample: dragging the `bottom_mid` handle of the rectangle
`(100,100,500,400)` to pointer `(300,100)` writes `(100,100,500,100)` to
the canvas — zero height, so the strict invariant `y1 < y2` does not hold
after this `resizeEdge` mutation. -/
theorem C1_counterexample :
    ¬ ((drag 300 100 ⟨100, 100, 500, 400⟩ ⟨0, 0, false, some .bottom_mid⟩).y1
        < (drag 300 100 ⟨100, 100, 500, 400⟩ ⟨0, 0, false, some .bottom_mid⟩).y2) := by
  decide

/-- C1, amended: after every mutation performed by the drag handler
(body drag or handle resize), the rectangle satisfies the non-strict
invariant `x1 ≤ x2 ∧ y1 ≤ y2`: inverted coordinates are swapped by the
canvas (never rejected), but a coordinate dragged exactly onto the
opposite edge yields a degenerate zero-width or zero-height rectangle,
so the strict invariant `x1 < x2 ∧ y1 < y2` can fail. -/
theorem C1_mutation_normalized (x y : Int) (r : Rect) (d : DragData)
    (hmut : d.dragging = true ∨ d.resizing.isSome = true) :
    (drag x y r d).x1 ≤ (drag x y r d).x2 ∧ (drag x y r d).y1 ≤ (drag x y r d).y2 := by
  rcases d with ⟨dx, dy, dg, rz⟩
  cases dg
  · rcases rz with _ | h
    · simp at hmut
    · cases h <;> exact tkSetRectCoords_le ..
  · exact tkSetRectCoords_le ..

/-- C1, witness for the amended theorem at a concrete mutation. -/
theorem C1_witness :
    ((⟨0, 0, true, none⟩ : DragData).dragging = true ∨
      (⟨0, 0, true, none⟩ : DragData).resizing.isSome = true) ∧
    ((drag 7 9 ⟨0, 0, 10, 10⟩ ⟨0, 0, true, none⟩).x1
        ≤ (drag 7 9 ⟨0, 0, 10, 10⟩ ⟨0, 0, true, none⟩).x2 ∧
      (drag 7 9 ⟨0, 0, 10, 10⟩ ⟨0, 0, true, none⟩).y1
        ≤ (drag 7 9 ⟨0, 0, 10, 10⟩ ⟨0, 0, true, none⟩).y2) :=
  ⟨Or.inl rfl, C1_mutation_normalized 7 9 ⟨0, 0, 10, 10⟩ ⟨0, 0, true, none⟩ (Or.inl rfl)⟩

/-- C2, counterexample: dragging the `right_mid` handle of
`(100,100,500,400)` to pointer x = 100 yields a zero-width rectangle —
the moved edge is not pinned at `opposite ± 1` and the width drops below
1 pixel. -/
theorem C2_counterexample :
    ¬ (1 ≤ (drag 100 200 ⟨100, 100, 500, 400⟩ ⟨0, 0, false, some .right_mid⟩).x2
          - (drag 100 200 ⟨100, 100, 500, 400⟩ ⟨0, 0, false, some .right_mid⟩).x1) := by
  decide

/-- C2, amended: `resizeEdge` applies no clamping at all: the moved edge
is set to the raw pointer coordinate and the canvas swap-normalizes, so
the resulting width of a `right_mid` resize is exactly `|x - x1|` and the
resulting height of a `bottom_mid` resize is exactly `|y - y1|` — both 0
when the pointer reaches the opposite edge, with no 1-pixel minimum. -/
theorem C2_resize_no_clamp (x y a b : Int) (r : Rect) :
    (drag x y r ⟨a, b, false, some .right_mid⟩).x2
        - (drag x y r ⟨a, b, false, some .right_mid⟩).x1 = |x - r.x1| ∧
    (drag x y r ⟨a, b, false, some .bottom_mid⟩).y2
        - (drag x y r ⟨a, b, false, some .bottom_mid⟩).y1 = |y - r.y1| := by
  constructor <;>
    simp [drag, tkSetRectCoords, max_sub_min_eq_abs, abs_sub_comm]

/-- C4, counterexample: the persisted rectangle `{100,100,400,300}` lies
entirely inside the monitor `{0,0,1280,800}`, so `create_overlay` keeps
it as `(100,100,500,400)` — it is not reset to the centred rectangle
`(320,200,960,600)`. -/
theorem C4_counterexample :
    initRect ⟨0, 0, 1280, 800⟩ 0 ⟨100, 100, 400, 300⟩ = ⟨100, 100, 500, 400⟩ ∧
    initRect ⟨0, 0, 1280, 800⟩ 0 ⟨100, 100, 400, 300⟩ ≠ ⟨320, 200, 960, 600⟩ := by
  decide

/-- C4, amended: whenever the persisted rectangle fails the validity
check against the monitor under the pointer (here `{0,0,1280,800}`, with
zero canvas offset), the session resets to the centred half-size
rectangle `(320,200,960,600)`; the specific persisted rectangle
`{100,100,400,300}` is valid on that monitor, so it is kept, not reset. -/
theorem C4_reset_when_invalid (c : RectConfig)
    (h : validRect ⟨0, 0, 1280, 800⟩ 0 c = false) :
    initRect ⟨0, 0, 1280, 800⟩ 0 c = ⟨320, 200, 960, 600⟩ := by
  simp only [initRect, h, Bool.false_eq_true, if_false]
  decide

/-- C4, witness: a persisted rectangle reaching past the monitor's right
edge is invalid and resets to the centred rectangle. -/
theorem C4_witness :
    validRect ⟨0, 0, 1280, 800⟩ 0 ⟨800, 100, 600, 300⟩ = false ∧
    initRect ⟨0, 0, 1280, 800⟩ 0 ⟨800, 100, 600, 300⟩ = ⟨320, 200, 960, 600⟩ :=
  ⟨by decide, C4_reset_when_invalid ⟨800, 100, 600, 300⟩ (by decide)⟩

/-- C5, counterexample: with a single monitor at `(-100,-100)` the
virtual desktop has a negative origin on both axes, but
`capture_screenshot` subtracts the offset only from the x coordinates,
so its bounding box differs from the per-axis conversion the claim
describes. -/
theorem C5_counterexample :
    captureBBox (computeOffsetX ⟨-100, -100, 800, 600⟩ [] 0) ⟨10, 10, 20, 20⟩
      ≠ claimCaptureBBox (computeOffsetX ⟨-100, -100, 800, 600⟩ [] 0)
          (claimOffsetY ⟨-100, -100, 800, 600⟩ []) ⟨10, 10, 20, 20⟩ := by
  decide

/-- C5, amended: the capture conversion subtracts the negative-origin
offset on the x axis only (`canvas_offset_x`); the y coordinates are
passed through unchanged.  This agrees with the per-axis conversion of
the claim exactly when the virtual desktop's minimum y is nonnegative. -/
theorem C5_offset_x_only (m : Monitor) (rest : List Monitor) (r : Rect)
    (h : 0 ≤ virtMinY m rest) :
    captureBBox (computeOffsetX m rest 0) r
      = claimCaptureBBox (computeOffsetX m rest 0) (claimOffsetY m rest) r := by
  have hy : claimOffsetY m rest = 0 := by
    simp only [claimOffsetY, if_neg (by omega : ¬ virtMinY m rest < 0)]
  simp [captureBBox, claimCaptureBBox, hy]

/-- C5, witness for the amended theorem on a monitor with nonnegative
origin. -/
theorem C5_witness :
    0 ≤ virtMinY ⟨0, 0, 1280, 800⟩ [] ∧
    captureBBox (computeOffsetX ⟨0, 0, 1280, 800⟩ [] 0) ⟨10, 10, 20, 20⟩
      = claimCaptureBBox (computeOffsetX ⟨0, 0, 1280, 800⟩ [] 0)
          (claimOffsetY ⟨0, 0, 1280, 800⟩ []) ⟨10, 10, 20, 20⟩ :=
  ⟨by decide, C5_offset_x_only ⟨0, 0, 1280, 800⟩ [] ⟨10, 10, 20, 20⟩ (by decide)⟩

/-- C3, counterexample: with a session already open (overlay showing the
user's rectangle `(0,0,50,50)`), a Print Screen key-down reaches
`create_overlay()` unconditionally, which destroys the existing overlay
and re-initialises the rectangle from the persisted config — the first
session's state is not left untouched. -/
theorem C3_counterexample :
    (win32_event_filter 0x0100 0x2C ⟨0, 0, 1280, 800⟩ [] 10 10 ⟨100, 100, 400, 300⟩ 0
        ⟨some ⟨0, 0, 50, 50⟩, true, 0⟩).overlay ≠ some ⟨0, 0, 50, 50⟩ := by
  decide

/-- C3, amended: firing the trigger while a session is open is not a
no-op: `create_overlay` first destroys the existing overlay and then
rebuilds the session from the persisted config and monitor topology, so
the resulting state is the same whatever overlay and dialog were open
before (the previous session's rectangle is discarded, not preserved). -/
theorem C3_trigger_restarts (msg vk px py prevOff : Int) (m : Monitor)
    (rest : List Monitor) (cfg : RectConfig) (s t : AppState)
    (hkey : (msg = 0x0100 ∨ msg = 0x0104) ∧ vk = 0x2C)
    (htimers : s.pendingTimers = t.pendingTimers) :
    win32_event_filter msg vk m rest px py cfg prevOff s
      = win32_event_filter msg vk m rest px py cfg prevOff t := by
  simp only [win32_event_filter, if_pos hkey, create_overlay, destroy_overlay]
  simp [htimers]

/-- C3, witness: the trigger produces the same fresh session from two
different open-session states. -/
theorem C3_witness :
    (((0x0100 : Int) = 0x0100 ∨ (0x0100 : Int) = 0x0104) ∧ (0x2C : Int) = 0x2C) ∧
    ((⟨some ⟨0, 0, 50, 50⟩, true, 0⟩ : AppState).pendingTimers
        = (⟨none, false, 0⟩ : AppState).pendingTimers) ∧
    win32_event_filter 0x0100 0x2C ⟨0, 0, 1280, 800⟩ [] 10 10 ⟨100, 100, 400, 300⟩ 0
        ⟨some ⟨0, 0, 50, 50⟩, true, 0⟩
      = win32_event_filter 0x0100 0x2C ⟨0, 0, 1280, 800⟩ [] 10 10 ⟨100, 100, 400, 300⟩ 0
        ⟨none, false, 0⟩ :=
  ⟨⟨Or.inl rfl, rfl⟩, rfl,
    C3_trigger_restarts 0x0100 0x2C 10 10 0 ⟨0, 0, 1280, 800⟩ [] ⟨100, 100, 400, 300⟩
      ⟨some ⟨0, 0, 50, 50⟩, true, 0⟩ ⟨none, false, 0⟩ ⟨Or.inl rfl, rfl⟩ rfl⟩

/-- C6, counterexample: after a delayed save schedules the 5-second
timer, pressing Escape destroys the overlay and dialog but the timer —
to which no reference was kept — is still pending, so the capture is not
aborted. -/
theorem C6_counterexample :
    (on_press_esc (on_save ⟨false, true, false, true⟩
        ⟨some ⟨100, 100, 500, 400⟩, true, 0⟩)).pendingTimers ≠ 0 := by
  decide

/-- C6, amended: a delayed save schedules exactly one one-shot capture
timer; pressing Escape leaves that timer pending (it is not cancellable —
the script keeps no reference to it), and when it elapses it fires once
and is consumed (non-repeating). -/
theorem C6_delay_not_cancelled (opts : DialogOptions) (s : AppState)
    (hdelay : opts.delayScreenshot = true) :
    (on_save opts s).pendingTimers = s.pendingTimers + 1 ∧
    (on_press_esc (on_save opts s)).pendingTimers = s.pendingTimers + 1 ∧
    (timer_fire (on_press_esc (on_save opts s))).pendingTimers = s.pendingTimers := by
  simp [on_save, hdelay, on_press_esc, destroy_overlay, timer_fire, take_screenshot]

/-- C6, witness for the amended theorem at a concrete delayed save. -/
theorem C6_witness :
    (⟨false, true, false, true⟩ : DialogOptions).delayScreenshot = true ∧
    ((on_save ⟨false, true, false, true⟩
        ⟨some ⟨100, 100, 500, 400⟩, true, 0⟩).pendingTimers = 0 + 1 ∧
      (on_press_esc (on_save ⟨false, true, false, true⟩
        ⟨some ⟨100, 100, 500, 400⟩, true, 0⟩)).pendingTimers = 0 + 1 ∧
      (timer_fire (on_press_esc (on_save ⟨false, true, false, true⟩
        ⟨some ⟨100, 100, 500, 400⟩, true, 0⟩))).pendingTimers = 0) :=
  ⟨rfl, C6_delay_not_cancelled ⟨false, true, false, true⟩
    ⟨some ⟨100, 100, 500, 400⟩, true, 0⟩ rfl⟩

/-- C7, counterexample: with both sinks requested, a clipboard failure
raises out of `save_screenshot` before the file block runs, so the file
sink does not succeed even though the target folder is fine — the sinks
are not independent. -/
theorem C7_counterexample :
    (save_screenshot true true ⟨false, true⟩).fileSaved = false ∧
    (save_screenshot true true ⟨false, true⟩).raised = some "clipboard sink failed" := by
  decide

/-- C7, amended: the sinks run in a fixed order, clipboard first, with no
error isolation: the clipboard sink succeeds exactly when the clipboard
is available (a later file failure cannot roll it back, so a missing
folder fails only the file sink), but the file sink runs only if the
clipboard sink did not raise, so a clipboard failure blocks it. -/
theorem C7_sink_order (env : SinkEnv) :
    (save_screenshot true true env).clipboardSaved = env.clipboardOk ∧
    (save_screenshot true true env).fileSaved = (env.clipboardOk && env.folderOk) := by
  rcases env with ⟨cb, fo⟩
  cases cb <;> cases fo <;> decide

/-- C8, counterexample: with an unchanged single-monitor configuration
`{0,0,1280,800}`, confirming with the rectangle `(800,100,1400,400)`
persists it, but the next session's validation rejects it (it reaches
past the monitor's right edge) and resets to the centred default — the
round-trip does not reproduce the saved rectangle. -/
theorem C8_counterexample :
    initRect ⟨0, 0, 1280, 800⟩ 0 (saveRectConfig ⟨800, 100, 1400, 400⟩)
      ≠ ⟨800, 100, 1400, 400⟩ := by
  decide

/-- C8, amended: the persist/load round-trip reproduces the identical
rectangle exactly when the saved rectangle passes the next session's
validity check against the monitor under the pointer (with the same
canvas offset); otherwise validation replaces it with the centred
default even under an unchanged monitor configuration. -/
theorem C8_roundtrip_when_valid (mo : Monitor) (off : Int) (r : Rect)
    (h : validRect mo off (saveRectConfig r) = true) :
    initRect mo off (saveRectConfig r) = r := by
  rcases r with ⟨a, b, c, d⟩
  simp only [saveRectConfig] at h ⊢
  simp [initRect, h, Rect.mk.injEq]

/-- C8, witness: a rectangle strictly inside the monitor survives the
round-trip unchanged. -/
theorem C8_witness :
    validRect ⟨0, 0, 1280, 800⟩ 0 (saveRectConfig ⟨100, 100, 500, 400⟩) = true ∧
    initRect ⟨0, 0, 1280, 800⟩ 0 (saveRectConfig ⟨100, 100, 500, 400⟩)
      = ⟨100, 100, 500, 400⟩ :=
  ⟨by decide, C8_roundtrip_when_valid ⟨0, 0, 1280, 800⟩ 0 ⟨100, 100, 500, 400⟩ (by decide)⟩

/-- C9: the handle scan returns at most one handle — the first one in the
fixed dict order whose closed box contains the point — and since the four
corner handles precede the edge-midpoint handles in that order, a point
inside some corner's box always yields a corner, never an edge handle;
moreover any returned handle's box does contain the point. -/
theorem C9_corner_priority (x y : Int) (r : Rect)
    (_hw : r.x1 + HANDLE_SIZE ≤ r.x2) (_hh : r.y1 + HANDLE_SIZE ≤ r.y2)
    (hc : ∃ c ∈ cornerHandles, inBox x y (handleBox r c) = true) :
    (∃ c ∈ cornerHandles, hitTest x y r = some c) ∧
    ∀ hid, hitTest x y r = some hid → inBox x y (handleBox r hid) = true := by
  constructor
  · by_cases h1 : inBox x y (handleBox r .top_left) = true
    · exact ⟨.top_left, by simp [cornerHandles],
        by simp [hitTest, handleOrder, List.find?_cons, h1]⟩
    · by_cases h2 : inBox x y (handleBox r .top_right) = true
      · exact ⟨.top_right, by simp [cornerHandles],
          by simp [hitTest, handleOrder, List.find?_cons, h1, h2]⟩
      · by_cases h3 : inBox x y (handleBox r .bottom_left) = true
        · exact ⟨.bottom_left, by simp [cornerHandles],
            by simp [hitTest, handleOrder, List.find?_cons, h1, h2, h3]⟩
        · by_cases h4 : inBox x y (handleBox r .bottom_right) = true
          · exact ⟨.bottom_right, by simp [cornerHandles],
              by simp [hitTest, handleOrder, List.find?_cons, h1, h2, h3, h4]⟩
          · exfalso
            obtain ⟨c, hmem, hin⟩ := hc
            fin_cases hmem <;> simp_all
  · intro hid hEq
    rw [hitTest] at hEq
    simpa using List.find?_some hEq

/-- C9, witness: for the rectangle `(100,100,500,400)` the press point
`(100,100)` lies in the `top_left` corner box, and the hit test returns a
corner. -/
theorem C9_witness :
    ((⟨100, 100, 500, 400⟩ : Rect).x1 + HANDLE_SIZE ≤ (⟨100, 100, 500, 400⟩ : Rect).x2) ∧
    ((⟨100, 100, 500, 400⟩ : Rect).y1 + HANDLE_SIZE ≤ (⟨100, 100, 500, 400⟩ : Rect).y2) ∧
    (∃ c ∈ cornerHandles, inBox 100 100 (handleBox ⟨100, 100, 500, 400⟩ c) = true) ∧
    ((∃ c ∈ cornerHandles, hitTest 100 100 ⟨100, 100, 500, 400⟩ = some c) ∧
      ∀ hid, hitTest 100 100 ⟨100, 100, 500, 400⟩ = some hid →
        inBox 100 100 (handleBox ⟨100, 100, 500, 400⟩ hid) = true) :=
  ⟨by decide, by decide, by decide,
    C9_corner_priority 100 100 ⟨100, 100, 500, 400⟩ (by decide) (by decide) (by decide)⟩

/-- C10: the handle boxes are closed on all four sides
(`coords[0] <= x <= coords[2] and coords[1] <= y <= coords[3]`), so a
press point lying exactly on a boundary of some handle's box makes
`start_drag` record a resize (some handle is set in
`drag_data["resizing"]`) and never a body drag. -/
theorem C10_boundary_press_resizes (x y : Int) (r : Rect) (d : DragData)
    (hidle : d.dragging = false)
    (hb : ∃ hid ∈ handleOrder, inBox x y (handleBox r hid) = true ∧
        ((handleBox r hid).x1 = x ∨ (handleBox r hid).x2 = x ∨
          (handleBox r hid).y1 = y ∨ (handleBox r hid).y2 = y)) :
    (start_drag x y r d).resizing.isSome = true ∧
    (start_drag x y r d).dragging = false := by
  obtain ⟨h0, hmem, hin, _⟩ := hb
  have hsome : (hitTest x y r).isSome := by
    rw [hitTest]
    exact List.find?_isSome.mpr ⟨h0, hmem, hin⟩
  obtain ⟨hid, hEq⟩ := Option.isSome_iff_exists.mp hsome
  unfold start_drag
  rw [hEq]
  exact ⟨rfl, hidle⟩

/-- C10, witness: with rectangle `(100,100,500,400)` the point `(95,100)`
lies exactly on the left boundary of the `top_left` handle box, and the
press is treated as a resize, not a drag. -/
theorem C10_witness :
    ((⟨0, 0, false, none⟩ : DragData).dragging = false) ∧
    (∃ hid ∈ handleOrder,
        inBox 95 100 (handleBox ⟨100, 100, 500, 400⟩ hid) = true ∧
        ((handleBox ⟨100, 100, 500, 400⟩ hid).x1 = 95 ∨
          (handleBox ⟨100, 100, 500, 400⟩ hid).x2 = 95 ∨
          (handleBox ⟨100, 100, 500, 400⟩ hid).y1 = 100 ∨
          (handleBox ⟨100, 100, 500, 400⟩ hid).y2 = 100)) ∧
    ((start_drag 95 100 ⟨100, 100, 500, 400⟩ ⟨0, 0, false, none⟩).resizing.isSome = true ∧
      (start_drag 95 100 ⟨100, 100, 500, 400⟩ ⟨0, 0, false, none⟩).dragging = false) :=
  ⟨rfl, by decide,
    C10_boundary_press_resizes 95 100 ⟨100, 100, 500, 400⟩ ⟨0, 0, false, none⟩
      rfl (by decide)⟩

end Screenshot
